import Mathlib

/-!
Verification development for the abstreet challenge / headless-batch subsystem.

Shallow embedding of:
  * game/src/challenges.rs  (challenge catalog, prebaking, statistics aggregation)
  * headless/src/main.rs    (batch entry point: save_at parsing, demand spawning,
    halt condition handed to run_until_done)

Durations and ticks are embedded as integers (seconds).  BTreeMap keyed by the
finite TripMode type is embedded as the total function TripMode -> Option v,
which captures exactly the finite mapping; value-level iteration order is
irrelevant to every statement below because results are compared as mappings.
-/

/-- Modelled from the spec: sim::TripMode (the sim crate is not under src/).
The four travel modes enumerated in prebake_faster_trips. -/
inductive TripMode where
  | Walk
  | Bike
  | Transit
  | Drive
deriving DecidableEq, Repr

/-- The list of modes inserted into the distributions map in
prebake_faster_trips (challenges.rs lines 160-167). -/
def TripMode.all : List TripMode :=
  [TripMode.Walk, TripMode.Bike, TripMode.Transit, TripMode.Drive]

/-- One finished-trip record from sim.get_finished_trips().finished_trips:
a tuple (trip id, mode, duration).  Durations in whole seconds. -/
structure FinishedTrip where
  agent : Nat
  mode : TripMode
  duration : Int
deriving DecidableEq, Repr

/-- Modelled from the spec: geom::DurationHistogram (the geom crate is not
under src/).  A per-mode accumulator of observed durations; embedded as the
list of observations in insertion order, so that order-independence of the
derived statistics is a real theorem, not an assumption. -/
abbrev DurationHistogram := List Int

/-- Default::default() for DurationHistogram: no observations. -/
def defaultHistogram : DurationHistogram := []

/-- DurationHistogram::add pushes one observed duration. -/
def histAdd (h : DurationHistogram) (d : Int) : DurationHistogram :=
  h ++ [d]

/-- Modelled from the spec: geom::DurationStats, a percentile summary derived
once from a histogram (spec section 3: count and percentiles, the 50th being
the designated percentile used by FasterTrips scoring). -/
structure DurationStats where
  count : Nat
  p50 : Int
  p90 : Int
deriving DecidableEq, Repr

/-- Percentile selection on an already sorted list of observations. -/
def percentileOf (sorted : List Int) (p : Nat) : Int :=
  sorted.getD (p * sorted.length / 100) 0

/-- Modelled from the spec: DurationHistogram::to_stats - reduce the
accumulated observations to an immutable percentile summary. -/
def toStats (h : DurationHistogram) : DurationStats :=
  { count := h.length
    p50 := percentileOf (List.insertionSort (fun a b : Int => a ≤ b) h) 50
    p90 := percentileOf (List.insertionSort (fun a b : Int => a ≤ b) h) 90 }

/-- Embedding of BTreeMap with the finite key type TripMode: the total
function to Option, i.e. exactly a finite partial mapping. -/
abbrev ModeMap (α : Type) := TripMode → Option α

/-- BTreeMap::new. -/
def ModeMap.empty {α : Type} : ModeMap α := fun _ => none

/-- BTreeMap::insert (replacing any previous value at the key). -/
def ModeMap.insert {α : Type} (f : ModeMap α) (k : TripMode) (v : α) : ModeMap α :=
  fun m => if m = k then some v else f m

/-- challenges.rs lines 159-167: the distributions map after inserting a
default histogram for each of the four modes, before any trip is processed. -/
def initDistribs : ModeMap DurationHistogram :=
  TripMode.all.foldl (fun f m => f.insert m defaultHistogram) ModeMap.empty

/-- challenges.rs lines 168-170: the per-trip loop.  `distribs.get_mut(&m)`
followed by `.unwrap()` is embedded as an Option lookup whose `none` result
is the panic branch of the unwrap, propagated as the overall result `none`. -/
def processTrips (distribs : ModeMap DurationHistogram) :
    List FinishedTrip → Option (ModeMap DurationHistogram)
  | [] => some distribs
  | t :: rest =>
    match distribs t.mode with
    | none => none
    | some h => processTrips (distribs.insert t.mode (histAdd h t.duration)) rest

/-- challenges.rs lines 171-173: reduce every accumulated histogram to stats,
producing the faster_trips mapping of PrebakedResults. -/
def finishResults (distribs : ModeMap DurationHistogram) : ModeMap DurationStats :=
  fun m => (distribs m).map toStats

/-- The whole collect-results block of prebake_faster_trips (lines 158-174),
as a function of the finished-trip ledger the simulation produced. -/
def collectResults (trips : List FinishedTrip) : Option (ModeMap DurationStats) :=
  (processTrips initDistribs trips).map finishResults

/-- The DurationStats recorded for one mode by the aggregation (none both
when the unwrap panics and when the mode has no entry). -/
def statsFor (trips : List FinishedTrip) (m : TripMode) : Option DurationStats :=
  (collectResults trips).bind (fun r => r m)

/-- The multiset (here: subsequence) of durations of the trips of one mode,
in ledger order - the reference value the per-mode histogram accumulates. -/
def modeDurations (m : TripMode) (trips : List FinishedTrip) : List Int :=
  (trips.filter (fun t => t.mode == m)).map (fun t => t.duration)

/-- crate::sandbox::GameplayMode as matched in challenges.rs. -/
inductive GameplayMode where
  | OptimizeBus (route : String)
  | CreateGridlock
  | FasterTrips (mode : TripMode)
deriving DecidableEq, Repr

/-- challenges.rs lines 15-21: the Challenge struct, field for field. -/
structure Challenge where
  title : String
  description : String
  map_name : String
  gameplay : GameplayMode
deriving DecidableEq, Repr

/-- challenges.rs lines 24-62: the static challenge catalog, verbatim. -/
def all_challenges : List Challenge :=
  [ { title := "Speed up route 48 (just Montlake area)"
      description :=
        "Decrease the average waiting time between all of route 48\x27s stops by at least 30s"
      map_name := "montlake"
      gameplay := GameplayMode.OptimizeBus "48" }
  , { title := "Speed up route 48 (larger section)"
      description :=
        "Decrease the average waiting time between all of 48\x27s stops by at least 30s"
      map_name := "23rd"
      gameplay := GameplayMode.OptimizeBus "48" }
  , { title := "Gridlock all of the everything"
      description := "Make traffic as BAD as possible!"
      map_name := "montlake"
      gameplay := GameplayMode.CreateGridlock }
  , { title := "Speed up all bike trips"
      description := "Reduce the 50%ile trip times of bikes by at least 1 minute"
      map_name := "montlake"
      gameplay := GameplayMode.FasterTrips TripMode.Bike }
  , { title := "Speed up all car trips"
      description := "Reduce the 50%ile trip times of drivers by at least 5 minutes"
      map_name := "montlake"
      gameplay := GameplayMode.FasterTrips TripMode.Drive } ]

/-- The catalog entry for the bike challenge (all_challenges index 3). -/
def bikeChallenge : Challenge :=
  { title := "Speed up all bike trips"
    description := "Reduce the 50%ile trip times of bikes by at least 1 minute"
    map_name := "montlake"
    gameplay := GameplayMode.FasterTrips TripMode.Bike }

/-- The bike challenge with the prose threshold changed from 1 minute to
2 minutes: a Challenge value identical to bikeChallenge in every field other
than the free-text description. -/
def bikeChallengeAltThreshold : Challenge :=
  { bikeChallenge with
    description := "Reduce the 50%ile trip times of bikes by at least 2 minutes" }

/-- The structured (non-free-text-threshold) content of a Challenge: every
field the struct has besides the description string. -/
def eraseDescription (c : Challenge) : String × String × GameplayMode :=
  (c.title, c.map_name, c.gameplay)

/-- challenges.rs lines 182-185: PrebakedResults, whose only key is the
travel mode - no map-name component. -/
structure PrebakedResults where
  faster_trips : ModeMap DurationStats

/-- prebake_faster_trips as a producer of the persisted record, as a function
of the map name and of the finished-trip ledger the deterministic run on that
map yields.  The record construction itself (lines 158-174) never consults
the map name; only the loaded scenario (abstracted into `trips`) does. -/
def prebakeFasterTrips (map_name : String) (trips : List FinishedTrip) :
    Option PrebakedResults :=
  (collectResults trips).map PrebakedResults.mk

/-- sim::SimFlags as constructed in prebake_faster_trips (lines 145-154). -/
structure SimFlags where
  load : String
  use_map_fixes : Bool
  rng_seed : Option Nat
  opts : String
deriving DecidableEq, Repr

/-- Modelled from the spec: abstutil::SCENARIOS directory constant (abstutil
is not under src/). -/
def SCENARIOS : String := "scenarios"

/-- Modelled from the spec: abstutil::path1_bin, the data-path naming helper
(abstutil is not under src/): a path naming the map, category and file. -/
def path1_bin (map_name dir file : String) : String :=
  "../data/" ++ map_name ++ "/" ++ dir ++ "/" ++ file ++ ".bin"

/-- The SimFlags value prebake_faster_trips builds for a map (lines 145-154):
the named reference scenario, map fixes on, the fixed seed 42. -/
def prebakeFlags (map_name : String) : SimFlags :=
  { load := path1_bin map_name SCENARIOS "weekday_typical_traffic_from_psrc"
    use_map_fixes := true
    rng_seed := some 42
    opts := "prebaked" }

/-- Modelled from the spec: geom::Duration::END_OF_DAY, the end-of-day
horizon (24 simulated hours, in seconds). -/
def END_OF_DAY : Int := 86400

/-- challenges.rs line 139: the fixed output path of prebake. -/
def prebakeOutputPath : String := "../data/prebaked_results.json"

/-- The configuration trace of one prebake_faster_trips call inside
prebake(): which map, which flags, how far the simulation is stepped, and
where prebake() persists the aggregate. -/
structure PrebakeRun where
  map_name : String
  flags : SimFlags
  step_to : Int
  output_path : String
deriving DecidableEq, Repr

/-- challenges.rs lines 133-140 and 142-156: prebake() runs exactly one
prebake_faster_trips call, on montlake, and writes the results file. -/
def prebakeRun : PrebakeRun :=
  { map_name := "montlake"
    flags := prebakeFlags "montlake"
    step_to := END_OF_DAY
    output_path := prebakeOutputPath }

/-- Simulated clock value of the headless driver (sim::Tick). -/
abbrev Tick := Nat

/-- Tick::zero(). -/
def Tick.zero : Tick := 0

/-- Modelled from the spec: sim::Tick::parse (the sim crate is not under
src/).  The spec says parse fails softly, returning no value on malformed
text; modelled as accepting nonempty decimal digit strings (a count of
seconds) and returning none on any other text. -/
def Tick.parse (s : String) : Option Tick :=
  if s.data.isEmpty then none
  else if s.data.all Char.isDigit then
    some (s.data.foldl (fun n c => 10 * n + (c.toNat - 48)) 0)
  else none

/-- Outcome of a code path that either returns a value or aborts the whole
process (Rust panic). -/
inductive ProcResult (α : Type) where
  | ok (value : α)
  | aborted (msg : String)
deriving DecidableEq, Repr

/-- headless/src/main.rs lines 55-63: resolving the save_at flag.  A missing
flag is fine; an unparsable time string hits
  panic!("Couldn\x27t parse time {}", time_str),
embedded as the aborted outcome carrying the formatted panic message. -/
def resolveSaveAt : Option String → ProcResult (Option Tick)
  | none => ProcResult.ok none
  | some s =>
    match Tick.parse s with
    | some t => ProcResult.ok (some t)
    | none => ProcResult.aborted ("Couldn\x27t parse time " ++ s)

/-- Which demand-spawning entry point the headless main invokes. -/
inductive SpawnKind where
  | big
  | small
deriving DecidableEq, Repr

/-- headless/src/main.rs lines 46-53: spawn demand only when the loaded
simulation is at time zero, choosing big_spawn or small_spawn by the big_sim
flag; none records that no spawning call is made. -/
def headlessSpawn (time : Tick) (big_sim : Bool) : Option SpawnKind :=
  if time = Tick.zero then
    some (if big_sim then SpawnKind.big else SpawnKind.small)
  else none

/-- headless/src/main.rs lines 69-76: the single halt condition handed to
run_until_done.  First component: whether sim.save() ran; second component:
the Bool the closure returns (the stop request). -/
def saveAtHalt (save_at : Option Tick) (time : Tick) : Bool × Bool :=
  if some time = save_at then (true, true) else (false, false)

/-- Outcome of the driver loop. -/
inductive RunOutcome where
  | completed (t : Tick)
  | halted (t : Tick)
  | outOfFuel
deriving DecidableEq, Repr

/-- Modelled from the spec: sim::init::run_until_done, the SimulationDriver
loop of spec section 4.4 (the sim crate is not under src/): each iteration
advances the engine one step, then evaluates the halt condition; the loop
ends when the engine reports completion or the condition requests stop.
`fuel` bounds the recursion; the headless state observed by the halt
condition is its clock. -/
def runUntilDone (fuel : Nat) (stepFn : Tick → Tick) (doneFn : Tick → Bool)
    (halt : Tick → Bool) (t : Tick) : RunOutcome :=
  match fuel with
  | 0 => RunOutcome.outOfFuel
  | Nat.succ n =>
    if doneFn t then RunOutcome.completed t
    else
      if halt (stepFn t) then RunOutcome.halted (stepFn t)
      else runUntilDone n stepFn doneFn halt (stepFn t)

/-- Pass or fail of a challenge evaluation. -/
inductive EvalResult where
  | Pass
  | Fail
deriving DecidableEq, Repr

/-- Modelled from the spec: the numeric required improvement of each
FasterTrips catalog entry, as stated in its description and in spec
section 8 (bikes: 1 minute; drivers: 5 minutes); none for challenges whose
goal is not FasterTrips.  No Challenge field carries this number. -/
def fasterTripsRequirement (c : Challenge) : Option Int :=
  match c.gameplay with
  | GameplayMode.FasterTrips TripMode.Bike => some 60
  | GameplayMode.FasterTrips TripMode.Drive => some 300
  | _ => none

/-- Modelled from the spec: ChallengeEvaluator.evaluate (spec section 4.9)
for GameplayMode::FasterTrips - pass iff the current run's 50th-percentile
duration for the mode is at most the baseline's minus the challenge's
required improvement. -/
def evaluateFasterTrips (c : Challenge) (current baseline : DurationStats) :
    Option EvalResult :=
  (fasterTripsRequirement c).map
    (fun req => if current.p50 ≤ baseline.p50 - req then EvalResult.Pass else EvalResult.Fail)

/-! ## Helper lemmas -/

theorem initDistribs_apply (m : TripMode) : initDistribs m = some defaultHistogram := by
  cases m <;> rfl

theorem processTrips_total (trips : List FinishedTrip) :
    ∀ d : ModeMap DurationHistogram,
      (∀ m, (d m).isSome = true) → (processTrips d trips).isSome = true := by
  induction trips with
  | nil =>
    intro d _
    simp [processTrips]
  | cons t rest ih =>
    intro d hd
    cases hm : d t.mode with
    | none =>
      have h1 := hd t.mode
      rw [hm] at h1
      simp at h1
    | some h =>
      simp only [processTrips, hm]
      refine ih _ (fun m => ?_)
      by_cases hmt : m = t.mode <;> simp [ModeMap.insert, hmt, hd m]

theorem processTrips_pointwise (trips : List FinishedTrip) :
    ∀ d d2 : ModeMap DurationHistogram,
      processTrips d trips = some d2 →
      ∀ (m : TripMode) (h : List Int), d m = some h →
        d2 m = some (h ++ modeDurations m trips) := by
  induction trips with
  | nil =>
    intro d d2 hp m h hm
    simp only [processTrips, Option.some.injEq] at hp
    subst hp
    simp [modeDurations, hm]
  | cons t rest ih =>
    intro d d2 hp m h hm
    cases hd : d t.mode with
    | none => simp [processTrips, hd] at hp
    | some ht =>
      have hp2 : processTrips (d.insert t.mode (histAdd ht t.duration)) rest = some d2 := by
        simpa [processTrips, hd] using hp
      by_cases hmt : m = t.mode
      · have hth : ht = h := by
          rw [hmt, hd] at hm
          exact (Option.some.injEq _ _).mp hm
        subst hth
        have hins : (d.insert t.mode (histAdd ht t.duration)) m = some (ht ++ [t.duration]) := by
          simp [ModeMap.insert, hmt, histAdd]
        have h2 := ih _ _ hp2 m (ht ++ [t.duration]) hins
        rw [h2]
        have heq : (t.mode == m) = true := by simp [beq_iff_eq, hmt]
        simp [modeDurations, List.filter_cons, heq, List.append_assoc]
      · have hins : (d.insert t.mode (histAdd ht t.duration)) m = some h := by
          simp [ModeMap.insert, hmt, hm]
        have h2 := ih _ _ hp2 m h hins
        rw [h2]
        have hne : (t.mode == m) = false := by
          simp [beq_iff_eq]
          intro he
          exact hmt he.symm
        simp [modeDurations, List.filter_cons, hne]

theorem statsFor_eq (trips : List FinishedTrip) (m : TripMode) :
    statsFor trips m = some (toStats (modeDurations m trips)) := by
  have htot := processTrips_total trips initDistribs
    (fun m2 => by rw [initDistribs_apply]; rfl)
  cases hp : processTrips initDistribs trips with
  | none => rw [hp] at htot; simp at htot
  | some d2 =>
    have hpoint := processTrips_pointwise trips initDistribs d2 hp m
      defaultHistogram (initDistribs_apply m)
    simp [statsFor, collectResults, hp, finishResults, hpoint, defaultHistogram]

theorem toStats_perm {h1 h2 : List Int} (hp : h1.Perm h2) : toStats h1 = toStats h2 := by
  have hs : List.insertionSort (fun a b : Int => a ≤ b) h1
      = List.insertionSort (fun a b : Int => a ≤ b) h2 :=
    List.eq_of_perm_of_sorted
      ((List.perm_insertionSort _ h1).trans (hp.trans (List.perm_insertionSort _ h2).symm))
      (List.sorted_insertionSort _ h1) (List.sorted_insertionSort _ h2)
  simp [toStats, hs, hp.length_eq]

/-! ## Claim theorems -/

/-- Claim C1, counterexample: aggregating an empty finished-trip ledger does
NOT yield an empty statistics mapping - the mode Walk (like every mode) gets
a default, zero-observation DurationStats entry, because the four keys are
inserted before the (empty) ledger is scanned. -/
theorem empty_ledger_default_entries :
    statsFor [] TripMode.Walk = some (toStats defaultHistogram)
    ∧ statsFor [] TripMode.Walk ≠ none := by
  exact ⟨by decide, by decide⟩

/-- Claim C1, amended: aggregation over an empty ledger does not crash
(collectResults returns a value, never the unwrap-panic none), and produces a
mapping in which every one of the four travel modes has the default
zero-observation statistics entry - not an empty mapping. -/
theorem empty_ledger_four_default_entries :
    (collectResults []).isSome = true
    ∧ (∀ m : TripMode, statsFor [] m = some (toStats defaultHistogram)) := by
  refine ⟨rfl, fun m => ?_⟩
  cases m <;> decide

/-- Claim C2, counterexample: the catalog holds challenges on two different
maps (montlake and 23rd), yet the persisted baseline record produced by
prebake_faster_trips is identical for any two map names given the same run
ledger - the record is keyed by travel mode only and carries no map-name
component - and prebake writes a single fixed path.  So two challenges on
different maps share one baseline record, contradicting the claimed
(map name, travel mode) keying. -/
theorem baseline_key_ignores_map :
    (all_challenges.map (fun c => c.map_name)
      = ["montlake", "23rd", "montlake", "montlake", "montlake"])
    ∧ prebakeFasterTrips "montlake" [⟨1, TripMode.Bike, 300⟩]
        = prebakeFasterTrips "23rd" [⟨1, TripMode.Bike, 300⟩]
    ∧ prebakeRun.output_path = prebakeOutputPath := by
  exact ⟨by decide, rfl, rfl⟩

/-- Claim C2, amended: persisted baseline results are keyed by travel mode
only; the record built by prebake_faster_trips is the same function of the
run ledger for every map name, and prebake persists to one fixed path with
no map-name component, while the catalog does contain challenges on two
distinct maps (montlake and 23rd) that would therefore read the same
baseline record. -/
theorem baseline_keyed_by_mode_only :
    (∀ (map1 map2 : String) (trips : List FinishedTrip),
      prebakeFasterTrips map1 trips = prebakeFasterTrips map2 trips)
    ∧ "montlake" ∈ all_challenges.map (fun c => c.map_name)
    ∧ "23rd" ∈ all_challenges.map (fun c => c.map_name)
    ∧ prebakeRun.output_path = "../data/prebaked_results.json" := by
  exact ⟨fun _ _ _ => rfl, by decide, by decide, rfl⟩

/-- Claim C3, counterexample: handing the headless entry point a save_at
string that Clock::parse rejects does not produce a reportable
configuration error - it hits the panic branch, an unrecoverable abrupt
termination of the process, here at the concrete flag value "whenever". -/
theorem save_at_malformed_aborts :
    resolveSaveAt (some "whenever")
        = ProcResult.aborted ("Couldn\x27t parse time whenever")
    ∧ resolveSaveAt (some "whenever") ≠ ProcResult.ok none := by
  exact ⟨by decide, by decide⟩

/-- Claim C3, amended: when save_at is present but Clock::parse returns no
value, the headless entry point aborts the whole process via
panic!("Couldn\x27t parse time {}", time_str); an absent save_at and a
parseable save_at proceed normally. -/
theorem save_at_malformed_behavior (s : String) (hbad : Tick.parse s = none) :
    resolveSaveAt (some s) = ProcResult.aborted ("Couldn\x27t parse time " ++ s)
    ∧ resolveSaveAt none = ProcResult.ok none := by
  refine ⟨?_, rfl⟩
  simp [resolveSaveAt, hbad]

theorem save_at_malformed_behavior_witness :
    Tick.parse "whenever" = none
    ∧ (resolveSaveAt (some "whenever")
          = ProcResult.aborted ("Couldn\x27t parse time " ++ "whenever")
        ∧ resolveSaveAt none = ProcResult.ok none) :=
  ⟨by decide, save_at_malformed_behavior "whenever" (by decide)⟩

/-- Claim C4: prebake always runs the reference scenario
weekday_typical_traffic_from_psrc on montlake with the explicit fixed RNG
seed 42 and map fixes enabled, steps the simulation to the end-of-day
horizon, and persists the aggregate to the well-known path; the flags it
builds always carry an explicit seed, so a baseline is never produced from
an entropy-seeded (seedless) run. -/
theorem prebake_deterministic_config :
    prebakeRun.map_name = "montlake"
    ∧ prebakeRun.flags.load
        = path1_bin "montlake" SCENARIOS "weekday_typical_traffic_from_psrc"
    ∧ prebakeRun.flags.rng_seed = some 42
    ∧ prebakeRun.flags.use_map_fixes = true
    ∧ prebakeRun.step_to = END_OF_DAY
    ∧ prebakeRun.output_path = "../data/prebaked_results.json"
    ∧ (∀ map_name : String,
        (prebakeFlags map_name).rng_seed = some 42
        ∧ (prebakeFlags map_name).use_map_fixes = true
        ∧ ((prebakeFlags map_name).rng_seed).isSome = true) := by
  exact ⟨rfl, rfl, rfl, rfl, rfl, rfl, fun _ => ⟨rfl, rfl, rfl⟩⟩

/-- Claim C5: the statistics the prebake aggregation records for every
travel mode depend only on the multiset of finished-trip records, not on
their order - permuting the ledger leaves every mode's DurationStats
unchanged. -/
theorem aggregation_order_independent (trips1 trips2 : List FinishedTrip)
    (hperm : trips1.Perm trips2) (m : TripMode) :
    statsFor trips1 m = statsFor trips2 m := by
  rw [statsFor_eq, statsFor_eq]
  exact congrArg some (toStats_perm ((hperm.filter _).map _))

theorem aggregation_order_independent_witness :
    ([⟨1, TripMode.Bike, 300⟩, ⟨2, TripMode.Walk, 120⟩] : List FinishedTrip).Perm
        [⟨2, TripMode.Walk, 120⟩, ⟨1, TripMode.Bike, 300⟩]
    ∧ statsFor [⟨1, TripMode.Bike, 300⟩, ⟨2, TripMode.Walk, 120⟩] TripMode.Bike
        = statsFor [⟨2, TripMode.Walk, 120⟩, ⟨1, TripMode.Bike, 300⟩] TripMode.Bike :=
  ⟨by decide,
   aggregation_order_independent _ _ (by decide) TripMode.Bike⟩

/-- Claim C6: for every catalog challenge whose gameplay is
FasterTrips(mode), evaluation passes iff the current run's 50th-percentile
duration for that mode is at most the baseline's minus the challenge's
required improvement (60 seconds for the bike challenge); in particular a
run whose 50th percentile equals the baseline's fails. -/
theorem fasterTrips_pass_iff (c : Challenge) (hc : c ∈ all_challenges)
    (mode : TripMode) (hg : c.gameplay = GameplayMode.FasterTrips mode)
    (req : Int) (hr : fasterTripsRequirement c = some req)
    (current baseline : DurationStats) :
    (evaluateFasterTrips c current baseline = some EvalResult.Pass
        ↔ current.p50 ≤ baseline.p50 - req)
    ∧ (current.p50 = baseline.p50
        → evaluateFasterTrips c current baseline = some EvalResult.Fail)
    ∧ (mode = TripMode.Bike → req = 60) := by
  simp only [all_challenges, List.mem_cons, List.not_mem_nil, or_false] at hc
  rcases hc with rfl | rfl | rfl | rfl | rfl
  · simp [fasterTripsRequirement] at hr
  · simp [fasterTripsRequirement] at hr
  · simp [fasterTripsRequirement] at hr
  · simp only [fasterTripsRequirement, Option.some.injEq] at hr
    subst hr
    refine ⟨?_, ?_, fun _ => rfl⟩
    · by_cases hle : current.p50 ≤ baseline.p50 - 60 <;>
        simp [evaluateFasterTrips, fasterTripsRequirement, hle]
    · intro he
      have hnot : ¬ (current.p50 ≤ baseline.p50 - 60) := by
        rw [he]; omega
      simp [evaluateFasterTrips, fasterTripsRequirement, hnot]
  · simp only [fasterTripsRequirement, Option.some.injEq] at hr
    subst hr
    injection hg with hmode
    refine ⟨?_, ?_, fun hb => absurd (hmode.trans hb) (by decide)⟩
    · by_cases hle : current.p50 ≤ baseline.p50 - 300 <;>
        simp [evaluateFasterTrips, fasterTripsRequirement, hle]
    · intro he
      have hnot : ¬ (current.p50 ≤ baseline.p50 - 300) := by
        rw [he]; omega
      simp [evaluateFasterTrips, fasterTripsRequirement, hnot]

theorem fasterTrips_pass_iff_witness :
    bikeChallenge ∈ all_challenges
    ∧ bikeChallenge.gameplay = GameplayMode.FasterTrips TripMode.Bike
    ∧ fasterTripsRequirement bikeChallenge = some 60
    ∧ ((evaluateFasterTrips bikeChallenge ⟨10, 500, 700⟩ ⟨10, 500, 700⟩
          = some EvalResult.Pass
        ↔ (500 : Int) ≤ 500 - 60)
      ∧ ((500 : Int) = 500
          → evaluateFasterTrips bikeChallenge ⟨10, 500, 700⟩ ⟨10, 500, 700⟩
              = some EvalResult.Fail)
      ∧ (TripMode.Bike = TripMode.Bike → (60 : Int) = 60)) :=
  ⟨by decide, by decide, by decide,
   fasterTrips_pass_iff bikeChallenge (by decide) TripMode.Bike (by decide)
     60 (by decide) ⟨10, 500, 700⟩ ⟨10, 500, 700⟩⟩

/-- Claim C7: the single halt condition the headless main registers saves
and requests termination exactly when the simulation time equals the
supplied save_at tick, returns false at every other tick, and with no
save_at supplied it never saves and never requests stop - so the driver
loop can only end by the engine reporting completion (or fuel, in this
bounded model of the spec's loop). -/
theorem headless_halt_condition_spec :
    (∀ T t : Tick,
      ((saveAtHalt (some T) t).2 = true ↔ t = T)
      ∧ ((saveAtHalt (some T) t).1 = true ↔ t = T))
    ∧ (∀ t : Tick, saveAtHalt none t = (false, false))
    ∧ (∀ (fuel : Nat) (stepFn : Tick → Tick) (doneFn : Tick → Bool) (t u : Tick),
        runUntilDone fuel stepFn doneFn (fun s => (saveAtHalt none s).2) t
          ≠ RunOutcome.halted u) := by
  refine ⟨?_, ?_, ?_⟩
  · intro T t
    by_cases h : t = T <;> simp [saveAtHalt, h]
  · intro t
    simp [saveAtHalt]
  · intro fuel stepFn doneFn
    induction fuel with
    | zero =>
      intro t u
      simp [runUntilDone]
    | succ n ih =>
      intro t u
      by_cases hd : doneFn t = true
      · simp [runUntilDone, hd]
      · simp only [runUntilDone, hd, if_false, saveAtHalt]
        simpa using ih (stepFn t) u

/-- Claim C8, counterexample: the bike catalog entry and a challenge whose
prose demands a different improvement (2 minutes instead of 1) agree on
every structured field of Challenge - title, map name, gameplay - and even
on the spec-modelled threshold table keyed by those fields; the two differ
only in the free-text description.  So no structured field of Challenge
carries the numeric threshold. -/
theorem threshold_not_structured :
    bikeChallenge ∈ all_challenges
    ∧ eraseDescription bikeChallenge = eraseDescription bikeChallengeAltThreshold
    ∧ bikeChallenge.description ≠ bikeChallengeAltThreshold.description
    ∧ fasterTripsRequirement bikeChallenge
        = fasterTripsRequirement bikeChallengeAltThreshold := by
  exact ⟨by decide, by decide, by decide, rfl⟩

/-- Claim C8, amended: Challenge has exactly the fields title, description,
map_name and gameplay; the numeric pass/fail thresholds of the five catalog
entries appear only inside their free-text description strings (30s, 30s,
none, 1 minute, 5 minutes), and no other field is numeric - the structured
threshold the spec demands is an open design requirement, not current
code. -/
theorem catalog_thresholds_only_in_descriptions :
    all_challenges.map eraseDescription =
      [("Speed up route 48 (just Montlake area)", "montlake",
          GameplayMode.OptimizeBus "48"),
       ("Speed up route 48 (larger section)", "23rd",
          GameplayMode.OptimizeBus "48"),
       ("Gridlock all of the everything", "montlake",
          GameplayMode.CreateGridlock),
       ("Speed up all bike trips", "montlake",
          GameplayMode.FasterTrips TripMode.Bike),
       ("Speed up all car trips", "montlake",
          GameplayMode.FasterTrips TripMode.Drive)]
    ∧ all_challenges.map (fun c => c.description) =
      ["Decrease the average waiting time between all of route 48\x27s stops by at least 30s",
       "Decrease the average waiting time between all of 48\x27s stops by at least 30s",
       "Make traffic as BAD as possible!",
       "Reduce the 50%ile trip times of bikes by at least 1 minute",
       "Reduce the 50%ile trip times of drivers by at least 5 minutes"] := by
  exact ⟨by decide, by decide⟩

/-- Claim C9: the headless entry point spawns demand iff the loaded
simulation is at Tick::zero() - big_spawn when big_sim is set, small_spawn
otherwise - and makes no spawning call at any nonzero loaded time. -/
theorem headless_spawn_iff :
    (∀ (t : Tick) (b : Bool), (headlessSpawn t b).isSome = true ↔ t = Tick.zero)
    ∧ (∀ b : Bool, headlessSpawn Tick.zero b
        = some (if b then SpawnKind.big else SpawnKind.small))
    ∧ (∀ (t : Tick) (b : Bool), headlessSpawn (t + 1) b = none) := by
  refine ⟨?_, ?_, ?_⟩
  · intro t b
    by_cases h : t = Tick.zero <;> simp [headlessSpawn, h]
  · intro b
    simp [headlessSpawn]
  · intro t b
    simp [headlessSpawn, Tick.zero]

/-- Claim C10: under the precondition that every finished trip travels by
one of the four modes, processing the ledger never reaches the panic branch
of distribs.get_mut(&m).unwrap() (embedded as the none result), because the
four mode keys are inserted before any trip is processed. -/
theorem distribs_lookup_total (trips : List FinishedTrip)
    (hmodes : ∀ t ∈ trips, t.mode ∈ TripMode.all) :
    (processTrips initDistribs trips).isSome = true :=
  processTrips_total trips initDistribs
    (fun m => by rw [initDistribs_apply]; rfl)

theorem distribs_lookup_total_witness :
    (∀ t ∈ ([⟨1, TripMode.Bike, 300⟩, ⟨2, TripMode.Transit, 45⟩] : List FinishedTrip),
        t.mode ∈ TripMode.all)
    ∧ (processTrips initDistribs
        [⟨1, TripMode.Bike, 300⟩, ⟨2, TripMode.Transit, 45⟩]).isSome = true :=
  ⟨by decide, distribs_lookup_total _ (by decide)⟩
